import Mathlib

/-!
A verification development for the file `whitenoise/base.py` of the whitenoise fork.

The Python code is shallowly embedded: pure string manipulation becomes Lean
functions on `String`, Python exceptions become `Except PyErr`, the WSGI
`environ` dictionary entries relevant to conditional requests become explicit
optional arguments, and external stdlib collaborators (`hashlib`, `base64`,
`os.walk`, `email.utils.parsedate`) become function parameters.  Machine-level
details that the code never exercises are not modelled.
-/

namespace WhiteNoise

/-- Python exceptions that the embedded code can raise or catch. -/
inductive PyErr where
  | missingFileError
  | attributeError
  | typeError
  deriving DecidableEq, Repr

/-- Python `s.startswith(pre)`: code-point prefix test (structural, so that
concrete instances reduce in the kernel). -/
def pyStartsWith (s pre : String) : Bool := pre.data.isPrefixOf s.data

/-- Python `s.endswith(suf)`: code-point suffix test. -/
def pyEndsWith (s suf : String) : Bool := suf.data.isSuffixOf s.data

/-- Python `s.lower()` restricted to ASCII, as used for case-insensitive
header names. -/
def pyLower (s : String) : String := String.mk (s.data.map Char.toLower)

/-- Helper for `splitOnChar`: accumulate the current token (reversed). -/
def splitOnCharAux (sep : Char) : List Char → List Char → List String
  | [], acc => [String.mk acc.reverse]
  | c :: rest, acc =>
    if c = sep then String.mk acc.reverse :: splitOnCharAux sep rest []
    else splitOnCharAux sep rest (c :: acc)

/-- Python `s.split(sep)` for a one-character separator: split at every
occurrence, keeping empty tokens (`''.split(',') == ['']`). -/
def splitOnChar (sep : Char) (s : String) : List String :=
  splitOnCharAux sep s.data []

/-- ASCII whitespace characters removed by the Python method `str.strip()` with no
argument (space, tab, newline, carriage return, vertical tab, form feed). -/
def isPySpace (c : Char) : Bool :=
  c = ' ' || c = '\t' || c = '\n' || c = '\r' || c = '\x0b' || c = '\x0c'

/-- Python `s.strip()`: drop leading and trailing whitespace. -/
def pyStrip (s : String) : String :=
  String.mk (((s.data.dropWhile isPySpace).reverse.dropWhile isPySpace).reverse)

/-- One step of the component scan inside the CPython function `posixpath.normpath`:
empty and `.` components are dropped; `..` pops the previous component unless
there is nothing to pop (at the root it is dropped, in a relative path it is
kept). -/
def normpathStep (initialSlashes : Nat) (acc : List String) (comp : String) :
    List String :=
  if comp = "" ∨ comp = "." then acc
  else if comp ≠ ".." ∨ (initialSlashes = 0 ∧ acc = []) ∨ acc.getLast? = some ".." then
    acc ++ [comp]
  else if acc = [] then acc
  else acc.dropLast

/-- the CPython function `posixpath.normpath`: collapse `.` and `..` segments and
redundant separators, preserving exactly two leading slashes when present. -/
def normpath (path : String) : String :=
  if path = "" then "."
  else
    let initialSlashes : Nat :=
      if pyStartsWith path "//" ∧ ¬ pyStartsWith path "///" then 2
      else if pyStartsWith path "/" then 1
      else 0
    let comps := splitOnChar '/' path
    let newComps := comps.foldl (normpathStep initialSlashes) []
    let joined := String.intercalate "/" newComps
    let result := String.mk (List.replicate initialSlashes '/') ++ joined
    if result = "" then "." else result

/-- `posixpath.join` restricted to two components, as used by
`os.path.join(root, url[len(prefix):])` in `find_file`: an absolute second
component replaces the first. -/
def osJoin (a b : String) : String :=
  if pyStartsWith b "/" then b
  else if a = "" ∨ pyEndsWith a "/" then a ++ b
  else a ++ "/" ++ b

/-- The ordered header list held by a `wsgiref.headers.Headers` object:
(name, value) pairs, duplicates permitted, names compared case-insensitively. -/
abbrev HeaderList := List (String × String)

/-- `Headers.__setitem__`: delete every pair whose name matches
case-insensitively, then append the new pair at the end. -/
def setHeader (hs : HeaderList) (name val : String) : HeaderList :=
  (hs.filter (fun kv => pyLower kv.1 != pyLower name)) ++ [(name, val)]

/-- `Headers.get` / `Headers.__getitem__`: the first value stored under a
case-insensitively matching name, or `none`. -/
def getHeader (hs : HeaderList) (name : String) : Option String :=
  (hs.find? (fun kv => pyLower kv.1 == pyLower name)).map Prod.snd

/-- `WhiteNoise.FOREVER`: ten years in seconds, the max-age nginx uses for
`expires max`. -/
def FOREVER : Nat := 10 * 365 * 24 * 60 * 60

/-- `WhiteNoise.is_immutable_file`: the default immutability policy, meant to
be overridden by sub-classes; always false. -/
def isImmutableFile (path url : String) : Bool := false

/-- `WhiteNoise.add_cache_headers`.  The immutability policy (an overridable
method, default `isImmutableFile`) and the configured `max_age` (`none` models
Python `None`) are passed explicitly. -/
def addCacheHeaders (immutable : String → String → Bool) (maxAge : Option Nat)
    (hs : HeaderList) (path url : String) : HeaderList :=
  if immutable path url then
    setHeader hs "Cache-Control" ("max-age=" ++ toString FOREVER ++ ", public, immutable")
  else
    match maxAge with
    | some n => setHeader hs "Cache-Control" ("max-age=" ++ toString n ++ ", public")
    | none => hs

/-- Python attribute access `someStr.update`: `str` has no attribute `update`,
so the call in `add_etag_headers` (base.py line 235, where `.format` was
evidently intended) raises `AttributeError` before any arguments matter. -/
def strUpdateAttr (s arg : String) : Except PyErr String :=
  .error .attributeError

/-- `HashedEtagWhiteNoise.add_etag_headers`.  The md5 digest and the base64
encoder (stdlib `hashlib` / `base64` collaborators) are the function
parameters `digest` and `b64encode`; `fileBytes` stands for the bytes returned
by `open(path, 'rb').read()`.  The format string is written with its braces
escaped. -/
def addEtagHeaders (digest : List Nat → List Nat) (b64encode : List Nat → String)
    (fileBytes : List Nat) (hs : HeaderList) : Except PyErr HeaderList :=
  let b64hash := b64encode (digest fileBytes)
  match strUpdateAttr "\"\x7b:s\x7d\"" b64hash with
  | .error e => .error e
  | .ok v => .ok (setHeader hs "etag" v)

/-- Python truthiness of `self.etag`, which `Headers.__getitem__` delivers as
an optional string: `None` and the empty string are falsy. -/
def pyTruthy : Option String → Bool
  | none => false
  | some s => s != ""

/-- `HashedEtagWhiteNoise.StaticFile._if_none_match_etag`: strip one leading
`W/` from the whole raw header value, split on commas, whitespace-strip each
token and compare it verbatim (quotes included) with `self.etag`. -/
def ifNoneMatchEtag (etag : Option String) (inmHeader : String) : Bool :=
  if ¬ pyTruthy etag ∨ inmHeader = "" then false
  else
    let inm := if pyStartsWith inmHeader "W/" then inmHeader.drop 2 else inmHeader
    let clientEtags := splitOnChar ',' inm
    clientEtags.any (fun t => pyStrip t == etag.getD "")

/-- Python 3 `>=` applied to `parsedate(value)` and the stored
`self.last_modified`: `parsedate` yields `None` on an unparseable date, and
`None >= x` raises `TypeError`; parsed dates (struct_time tuples at one-second
granularity) compare chronologically and are modelled as `Nat`. -/
def pyGeParsed : Option Nat → Nat → Except PyErr Bool
  | none, _ => .error .typeError
  | some a, b => .ok (decide (b ≤ a))

/-- `HashedEtagWhiteNoise.StaticFile.file_not_modified`.  `pd` stands for
stdlib `email.utils.parsedate`; `lastModified` is the `self.last_modified`
attribute set by the parent `StaticFile` class (its module is not part of the
sources; the attribute is kept abstract as a parsed date).  `inm` and `ims`
are the optional `HTTP_IF_NONE_MATCH` and `HTTP_IF_MODIFIED_SINCE` entries of
`request_headers`. -/
def fileNotModified (pd : String → Option Nat) (etag : Option String)
    (lastModified : Nat) (inm : Option String) (ims : Option String) :
    Except PyErr Bool :=
  match inm with
  | some h => .ok (ifNoneMatchEtag etag h)
  | none =>
    match ims with
    | none => .ok false
    | some v => pyGeParsed (pd v) lastModified

/-- The `for root, prefix in self.directories` loop of `WhiteNoise.find_file`.
`gsf` abstracts `self.get_static_file` (its outcome for each candidate path:
an entry of type `α`, or a raised exception); only `MissingFileError` is
caught, letting the loop continue to the next mount. -/
def findFileLoop {α : Type} (gsf : String → String → Except PyErr α) :
    List (String × String) → String → Except PyErr (Option α)
  | [], _ => .ok none
  | (root, pfx) :: rest, url =>
    if pyStartsWith url pfx then
      match gsf (osJoin root (url.drop pfx.length)) url with
      | .ok sf => .ok (some sf)
      | .error .missingFileError => findFileLoop gsf rest url
      | .error e => .error e
    else
      findFileLoop gsf rest url

/-- `WhiteNoise.find_file`: reject urls that are empty or end in a slash,
reject urls whose `normpath` differs from the raw url, then scan the mount
list in order. -/
def findFile {α : Type} (gsf : String → String → Except PyErr α)
    (directories : List (String × String)) (url : String) :
    Except PyErr (Option α) :=
  if url = "" then .ok none
  else if pyEndsWith url "/" then .ok none
  else if normpath url ≠ url then .ok none
  else findFileLoop gsf directories url

/-- Modelled from the spec: `ensure_leading_trailing_slash` from the missing
`utils` module — the url prefix of a mount is canonicalized so the canonical url
always begins with `/`; `None` (no prefix) becomes the bare `/`, and any
supplied prefix is wrapped in exactly one leading and one trailing slash. -/
def ensureLeadingTrailingSlash (p : Option String) : String :=
  let s := String.mk ((((p.getD "").data.dropWhile (· == '/')).reverse.dropWhile (· == '/')).reverse)
  if s = "" then "/" else "/" ++ s ++ "/"

/-- The per-instance state that `add_files` manipulates: the `autorefresh`
flag, the static-mode url→entry dictionary `files` (a Python dict, modelled
as a lookup function) and the dynamic-mode mount list `directories`. -/
structure WNState (α : Type) where
  autorefresh : Bool
  files : String → Option α
  directories : List (String × String)

/-- `WhiteNoise.update_files_dictionary`.  `walk` lists the regular files
`os.walk(root, followlinks=True)` finds, as (absolute path, relative url
path) pairs — `os.walk` and `os.path.relpath` are filesystem collaborators.
Each file is inserted under `prefix ++ relative`, overwriting any earlier
entry for that url. -/
def updateFilesDictionary {α : Type} (gsf : String → String → α)
    (walk : List (String × String)) (pfx : String)
    (files : String → Option α) : String → Option α :=
  walk.foldl
    (fun fs pr =>
      let url := pfx ++ pr.2
      fun u => if u = url then some (gsf pr.1 url) else fs u)
    files

/-- `WhiteNoise.add_files`: in autorefresh mode prepend the mount (so later
registrations match first); in static mode fold the walked files into the
dictionary. -/
def addFiles {α : Type} (gsf : String → String → α)
    (walk : String → List (String × String)) (st : WNState α)
    (root : String) (p : Option String) : WNState α :=
  let pfx := ensureLeadingTrailingSlash p
  if st.autorefresh then
    { st with directories := (root, pfx) :: st.directories }
  else
    { st with files := updateFilesDictionary gsf (walk root) pfx st.files }

/-- `WhiteNoise.__call__`.  `decodePathInfo` stands for `decode_path_info`
from the missing utils module, `pathInfo` extracts the PATH_INFO entry of environ,
`app` is the wrapped WSGI application and `serve` is `self.serve` applied to
the found entry; the environ and response types stay abstract.  A miss hands
`environ` and control to `app` unchanged. -/
def wnCall {α Env Resp : Type} (decodePathInfo : String → String)
    (pathInfo : Env → String) (app : Env → Resp) (serve : α → Env → Resp)
    (gsf : String → String → Except PyErr α) (st : WNState α)
    (environ : Env) : Except PyErr Resp :=
  let path := decodePathInfo (pathInfo environ)
  match (if st.autorefresh then findFile gsf st.directories path
         else .ok (st.files path)) with
  | .error e => .error e
  | .ok none => .ok (app environ)
  | .ok (some sf) => .ok (serve sf environ)

/-- Quote-character trimming as described by claim C2. -/
def trimQuotes (s : String) : String :=
  String.mk (((s.data.dropWhile (· == '"')).reverse.dropWhile (· == '"')).reverse)

/-- The If-None-Match evaluation as claim C2 states it (split on commas, then
per token: trim the weak prefix, surrounding whitespace and quote characters;
a bare `*` matches unconditionally) — written from the words of the claim, to be
compared with `ifNoneMatchEtag`, the evaluation the code performs. -/
def specIfNoneMatch (validator : String) (inmHeader : String) : Bool :=
  (splitOnChar ',' inmHeader).any (fun t0 =>
    let t1 := pyStrip t0
    let t2 := if pyStartsWith t1 "W/" then t1.drop 2 else t1
    let t3 := trimQuotes t2
    t3 == "*" || t3 == trimQuotes validator)

/-- After `setHeader`, the set name maps to the new value: every surviving
earlier pair fails the case-insensitive name test, so `getHeader` finds the
appended pair. -/
theorem getHeader_setHeader (hs : HeaderList) (n v : String) :
    getHeader (setHeader hs n v) n = some v := by
  simp [getHeader, setHeader]

/-- C1: refuted as the claim states it — `add_etag_headers` never stores any
etag and never completes: for every digest function, base64 encoder, file
content and header state, the embedded code raises `AttributeError`, because
the format-string literal has no `update` method (`.format` was intended). -/
theorem addEtagHeaders_always_attributeError
    (digest : List Nat → List Nat) (b64encode : List Nat → String)
    (fileBytes : List Nat) (hs : HeaderList) :
    addEtagHeaders digest b64encode fileBytes hs = .error .attributeError := rfl

/-- C2 counterexample: entry validator `"abc"` and raw header value `*`: the
evaluation described by the claim (`specIfNoneMatch`, wildcard matches
unconditionally) yields NOT_MODIFIED, but the code (`ifNoneMatchEtag`) has no
wildcard handling and yields FRESH. -/
theorem ifNoneMatchEtag_wildcard_cex :
    ifNoneMatchEtag (some "\"abc\"") "*" = false ∧
      specIfNoneMatch "\"abc\"" "*" = true :=
  ⟨rfl, rfl⟩

/-- C2 (amended): with a nonempty validator, the conditional evaluation
yields NOT_MODIFIED iff the raw header value is nonempty and, after stripping
a single weak prefix `W/` from the front of the whole value, splitting on
commas and trimming surrounding whitespace (not quotes) from each token, some
token equals the stored validator byte-for-byte; there is no wildcard
handling, and tokenization never fails on malformed tokens. -/
theorem ifNoneMatchEtag_amended (e inm : String) (he : e ≠ "") :
    ifNoneMatchEtag (some e) inm = true ↔
      inm ≠ "" ∧ ∃ t ∈ splitOnChar ','
        (if pyStartsWith inm "W/" then inm.drop 2 else inm), pyStrip t = e := by
  have ht : pyTruthy (some e) = true := by simp [pyTruthy, he]
  by_cases h0 : inm = ""
  · subst h0; simp [ifNoneMatchEtag, splitOnChar, splitOnCharAux]
  · simp [ifNoneMatchEtag, ht, h0, List.any_eq_true]

/-- C2 witness: the amended statement at validator `"abc"` and header value
`x, "abc"`, whose second token matches after whitespace trimming. -/
theorem ifNoneMatchEtag_amended_witness :
    (ifNoneMatchEtag (some "\"abc\"") "x, \"abc\"" = true ↔
      ("x, \"abc\"" : String) ≠ "" ∧ ∃ t ∈ splitOnChar ','
        (if pyStartsWith "x, \"abc\"" "W/" then ("x, \"abc\"" : String).drop 2
         else "x, \"abc\""), pyStrip t = "\"abc\"") :=
  ifNoneMatchEtag_amended "\"abc\"" "x, \"abc\"" (by decide)

/-- C3: the code contradicts the claim — when If-None-Match is absent and the
If-Modified-Since value does not parse as an HTTP date (`parsedate` returns
`None`), `file_not_modified` evaluates `None >= self.last_modified`, which
raises `TypeError` under the Python 3 semantics this class requires, instead
of treating the header as absent and returning FRESH. -/
theorem fileNotModified_malformed_ims (pd : String → Option Nat)
    (etag : Option String) (lm : Nat) (v : String) (h : pd v = none) :
    fileNotModified pd etag lm none (some v) = .error .typeError := by
  simp [fileNotModified, pyGeParsed, h]

/-- C3 witness: a concrete unparseable If-Modified-Since value. -/
theorem fileNotModified_malformed_ims_witness :
    fileNotModified (fun _ => none) (some "\"abc\"") 0 none (some "not-a-date")
      = .error .typeError :=
  fileNotModified_malformed_ims (fun _ => none) (some "\"abc\"") 0 "not-a-date" rfl

/-- C4: in autorefresh mode, a url that is empty, ends in a path separator,
or differs byte-for-byte from its normalized form is rejected before the
mount list is consulted: `find_file` returns no match for every mount list
and every `get_static_file` outcome (even one that would find a file at the
traversed location), and raises nothing. -/
theorem findFile_rejects_unnormalized {α : Type}
    (gsf : String → String → Except PyErr α)
    (dirs : List (String × String)) (url : String)
    (h : url = "" ∨ pyEndsWith url "/" = true ∨ normpath url ≠ url) :
    findFile gsf dirs url = .ok none := by
  unfold findFile
  split_ifs with h1 h2 h3
  · rfl
  · rfl
  · rfl
  · rcases h with h | h | h
    · exact absurd h h1
    · exact absurd h h2
    · exact absurd h h3

/-- C4 witness: `/a/../b` contains a traversal segment (it normalizes to
`/b`), so it is rejected although the mount claims a file exists there. -/
theorem findFile_rejects_unnormalized_witness :
    findFile (fun _ _ => (.ok () : Except PyErr Unit)) [("/srv", "/")] "/a/../b"
      = .ok none :=
  findFile_rejects_unnormalized (fun _ _ => .ok ()) [("/srv", "/")] "/a/../b"
    (Or.inr (Or.inr (by decide)))

/-- C5: the most recently registered mount wins.  (i) In autorefresh mode
`add_files` prepends the new mount to `directories`.  (ii) `find_file`
returns the entry of the first mount whose prefix matches and whose
`get_static_file` succeeds, regardless of the mounts after it.  (iii) In
static mode a second registration for the same url overwrites the earlier
entry in the url-to-entry mapping. -/
theorem addFiles_last_registration_wins {α : Type} (gsf : String → String → α)
    (walk : String → List (String × String)) (st : WNState α)
    (root : String) (p : Option String) :
    (st.autorefresh = true →
      (addFiles gsf walk st root p).directories
        = (root, ensureLeadingTrailingSlash p) :: st.directories)
  ∧ (∀ (gsfE : String → String → Except PyErr α) (root1 pfx1 : String)
        (rest : List (String × String)) (url : String) (a : α),
        url ≠ "" → pyEndsWith url "/" = false → normpath url = url →
        pyStartsWith url pfx1 = true →
        gsfE (osJoin root1 (url.drop pfx1.length)) url = .ok a →
        findFile gsfE ((root1, pfx1) :: rest) url = .ok (some a))
  ∧ (st.autorefresh = false → ∀ (path1 path2 rel : String),
        (addFiles gsf (fun _ => [(path2, rel)])
            (addFiles gsf (fun _ => [(path1, rel)]) st root p) root p).files
          (ensureLeadingTrailingSlash p ++ rel)
          = some (gsf path2 (ensureLeadingTrailingSlash p ++ rel))) := by
  refine ⟨fun ha => by simp [addFiles, ha], ?_, fun ha path1 path2 rel => ?_⟩
  · intro gsfE root1 pfx1 rest url a hu hs hn hp hg
    unfold findFile
    rw [if_neg hu, if_neg (by simp [hs]), if_neg (by simp [hn])]
    unfold findFileLoop
    rw [if_pos hp, hg]
  · simp [addFiles, ha, updateFilesDictionary]

/-- C5 witness: concrete registrations in both modes — prepending in
autorefresh mode, first-match-wins in `find_file`, and a later static-mode
registration overwriting the earlier entry for the shared url `/f`. -/
theorem addFiles_last_registration_wins_witness :
    (addFiles (fun pa _ => pa) (fun _ => []) (WNState.mk true (fun _ => none) [])
        "/r2" (some "s")).directories = [("/r2", "/s/")]
  ∧ findFile (fun pa _ => (.ok pa : Except PyErr String))
      [("/r1", "/"), ("/r2", "/")] "/f" = .ok (some "/r1/f")
  ∧ (addFiles (fun pa _ => pa) (fun _ => [("/r/b", "f")])
        (addFiles (fun pa _ => pa) (fun _ => [("/r/a", "f")])
          (WNState.mk false (fun _ => none) []) "/r" none) "/r" none).files "/f"
      = some "/r/b" :=
  ⟨(addFiles_last_registration_wins (fun pa _ => pa) (fun _ => [])
      (WNState.mk true (fun _ => none) []) "/r2" (some "s")).1 rfl,
   (addFiles_last_registration_wins (fun pa _ => pa) (fun _ => [])
      (WNState.mk true (fun _ => none) []) "/r2" (some "s")).2.1
      (fun pa _ => .ok pa) "/r1" "/" [("/r2", "/")] "/f" "/r1/f"
      (by decide) (by decide) rfl rfl rfl,
   (addFiles_last_registration_wins (fun pa _ => pa) (fun _ => [])
      (WNState.mk false (fun _ => none) []) "/r" none).2.2 rfl "/r/a" "/r/b" "f"⟩

/-- C6 counterexample: an entry with validator `"abc"` configured, a request
with no If-None-Match and an If-Modified-Since value parsing to a date after
Last-Modified: the code consults If-Modified-Since and returns NOT_MODIFIED,
whereas the claim requires If-Modified-Since to be ignored whenever a
validator is configured. -/
theorem fileNotModified_ims_despite_validator_cex :
    fileNotModified (fun _ => some 100) (some "\"abc\"") 50 none
      (some "Sun, 06 Nov 1994 08:49:37 GMT") = .ok true := rfl

/-- C6 (amended): when If-None-Match is present its evaluation alone decides
FRESH vs NOT_MODIFIED and If-Modified-Since is ignored; when If-None-Match is
absent, If-Modified-Since is consulted whenever present — regardless of the
configured validator — and a value parsing to date `d` yields NOT_MODIFIED
exactly when `d` is at or after Last-Modified. -/
theorem fileNotModified_priority (pd : String → Option Nat)
    (etag : Option String) (lm : Nat) (h : String) (ims1 ims2 : Option String)
    (v : String) (d : Nat) (hd : pd v = some d) :
    (fileNotModified pd etag lm (some h) ims1 = .ok (ifNoneMatchEtag etag h)
      ∧ fileNotModified pd etag lm (some h) ims1
          = fileNotModified pd etag lm (some h) ims2)
  ∧ fileNotModified pd etag lm none (some v) = .ok (decide (lm ≤ d)) := by
  refine ⟨⟨rfl, rfl⟩, ?_⟩
  simp [fileNotModified, pyGeParsed, hd]

/-- C6 witness: the amended statement at a concrete parse function, validator
and dates. -/
theorem fileNotModified_priority_witness :
    (fileNotModified (fun _ => some 100) (some "\"abc\"") 50 (some "x") none
        = .ok (ifNoneMatchEtag (some "\"abc\"") "x")
      ∧ fileNotModified (fun _ => some 100) (some "\"abc\"") 50 (some "x") none
          = fileNotModified (fun _ => some 100) (some "\"abc\"") 50 (some "x")
              (some "d"))
  ∧ fileNotModified (fun _ => some 100) (some "\"abc\"") 50 none (some "d")
      = .ok (decide (50 ≤ 100)) :=
  fileNotModified_priority (fun _ => some 100) (some "\"abc\"") 50 "x" none
    (some "d") "d" 100 rfl

/-- C7: cache-header policy — an immutable classification sets Cache-Control
to the ten-year max-age (`FOREVER = 315360000`) plus `public, immutable`; a
configured finite max_age sets `max-age=n, public`; with max_age disabled and
the file not immutable the header set is left untouched (so no Cache-Control
header is present when none was before); and the default immutability
predicate classifies no file immutable. -/
theorem addCacheHeaders_policy (immutable : String → String → Bool)
    (maxAge : Option Nat) (hs : HeaderList) (path url : String) :
    (immutable path url = true →
      getHeader (addCacheHeaders immutable maxAge hs path url) "Cache-Control"
        = some ("max-age=" ++ toString FOREVER ++ ", public, immutable"))
  ∧ (immutable path url = false → ∀ n, maxAge = some n →
      getHeader (addCacheHeaders immutable maxAge hs path url) "Cache-Control"
        = some ("max-age=" ++ toString n ++ ", public"))
  ∧ (immutable path url = false → maxAge = none →
      addCacheHeaders immutable maxAge hs path url = hs)
  ∧ isImmutableFile path url = false
  ∧ FOREVER = 315360000 := by
  refine ⟨fun hi => ?_, fun hi n hn => ?_, fun hi hn => ?_, rfl, rfl⟩
  · simp [addCacheHeaders, hi, getHeader_setHeader]
  · simp [addCacheHeaders, hi, hn, getHeader_setHeader]
  · simp [addCacheHeaders, hi, hn]

/-- C7 witness: the three branches at concrete policies, max ages and an
empty initial header set. -/
theorem addCacheHeaders_policy_witness :
    getHeader (addCacheHeaders (fun _ _ => true) (some 60) [] "/f" "/u")
        "Cache-Control" = some ("max-age=" ++ toString FOREVER ++ ", public, immutable")
  ∧ getHeader (addCacheHeaders (fun _ _ => false) (some 60) [] "/f" "/u")
        "Cache-Control" = some ("max-age=" ++ toString 60 ++ ", public")
  ∧ addCacheHeaders (fun _ _ => false) none [] "/f" "/u" = [] :=
  ⟨(addCacheHeaders_policy (fun _ _ => true) (some 60) [] "/f" "/u").1 rfl,
   (addCacheHeaders_policy (fun _ _ => false) (some 60) [] "/f" "/u").2.1 rfl 60 rfl,
   (addCacheHeaders_policy (fun _ _ => false) none [] "/f" "/u").2.2.1 rfl rfl⟩

/-- C8: when the lookup misses (static-mode dictionary miss, or autorefresh
`find_file` returning no match), the dispatcher returns exactly the response
of the wrapped application applied to the unmodified request environment. -/
theorem wnCall_passthrough {α Env Resp : Type} (decodePathInfo : String → String)
    (pathInfo : Env → String) (app : Env → Resp) (serve : α → Env → Resp)
    (gsf : String → String → Except PyErr α) (st : WNState α) (environ : Env)
    (h : (st.autorefresh = false
            ∧ st.files (decodePathInfo (pathInfo environ)) = none)
       ∨ (st.autorefresh = true
            ∧ findFile gsf st.directories (decodePathInfo (pathInfo environ))
                = .ok none)) :
    wnCall decodePathInfo pathInfo app serve gsf st environ = .ok (app environ) := by
  rcases h with ⟨ha, hf⟩ | ⟨ha, hf⟩ <;> simp [wnCall, ha, hf]

/-- C8 witness: a static-mode miss hands the environ string through
unchanged and returns exactly the wrapped response. -/
theorem wnCall_passthrough_witness :
    wnCall id id (fun e => "resp:" ++ e) (fun (_ : Unit) _ => "served")
      (fun _ _ => .error .missingFileError)
      (WNState.mk false (fun _ => none) []) "/miss" = .ok "resp:/miss" :=
  wnCall_passthrough id id (fun e => "resp:" ++ e) (fun _ _ => "served")
    (fun _ _ => .error .missingFileError) (WNState.mk false (fun _ => none) [])
    "/miss" (Or.inl ⟨rfl, rfl⟩)

/-- C9: a falsy etag (absent or the empty string) or an empty If-None-Match
value short-circuits `_if_none_match_etag` to False — FRESH — for every such
request, before any token list is built. -/
theorem ifNoneMatchEtag_falsy (etag : Option String) (inm : String)
    (h : pyTruthy etag = false ∨ inm = "") :
    ifNoneMatchEtag etag inm = false := by
  unfold ifNoneMatchEtag
  rcases h with h | h
  · rw [if_pos (Or.inl (by simp [h]))]
  · rw [if_pos (Or.inr h)]

/-- C9 witness: an absent etag with a well-formed header, and a configured
etag with an empty header, both yield FRESH. -/
theorem ifNoneMatchEtag_falsy_witness :
    ifNoneMatchEtag none "\"abc\"" = false
      ∧ ifNoneMatchEtag (some "\"abc\"") "" = false :=
  ⟨ifNoneMatchEtag_falsy none "\"abc\"" (Or.inl rfl),
   ifNoneMatchEtag_falsy (some "\"abc\"") "" (Or.inr rfl)⟩

/-- C10: inside `find_file`, only `MissingFileError` from building an entry
makes the loop fall through to the next mount (and an exhausted mount list
yields no match); any other exception raised while computing headers for a
candidate path propagates out of `find_file`. -/
theorem findFile_error_handling {α : Type}
    (gsf : String → String → Except PyErr α) (root pfx : String)
    (rest : List (String × String)) (url : String)
    (hu : url ≠ "") (hs : pyEndsWith url "/" = false) (hn : normpath url = url)
    (hp : pyStartsWith url pfx = true) :
    (∀ e, e ≠ PyErr.missingFileError →
        gsf (osJoin root (url.drop pfx.length)) url = .error e →
        findFile gsf ((root, pfx) :: rest) url = .error e)
  ∧ (gsf (osJoin root (url.drop pfx.length)) url = .error .missingFileError →
        findFile gsf ((root, pfx) :: rest) url = findFileLoop gsf rest url)
  ∧ findFileLoop gsf ([] : List (String × String)) url = .ok none := by
  have hf : findFile gsf ((root, pfx) :: rest) url
      = findFileLoop gsf ((root, pfx) :: rest) url := by
    unfold findFile
    rw [if_neg hu, if_neg (by simp [hs]), if_neg (by simp [hn])]
  refine ⟨fun e he hg => ?_, fun hg => ?_, rfl⟩
  · rw [hf]
    unfold findFileLoop
    rw [if_pos hp, hg]
    cases e with
    | missingFileError => exact absurd rfl he
    | attributeError => rfl
    | typeError => rfl
  · rw [hf]
    simp only [findFileLoop]
    rw [if_pos hp, hg]

/-- C10 witness: at the same mount and url, an `AttributeError` from entry
construction propagates, while a `MissingFileError` falls through to the
empty remainder of the mount list and yields no match. -/
theorem findFile_error_handling_witness :
    findFile (fun _ _ => (.error .attributeError : Except PyErr Unit))
        [("/srv", "/")] "/a" = .error .attributeError
  ∧ findFile (fun _ _ => (.error .missingFileError : Except PyErr Unit))
        [("/srv", "/")] "/a" = .ok none :=
  ⟨(findFile_error_handling (fun _ _ => .error .attributeError) "/srv" "/" []
      "/a" (by decide) (by decide) rfl rfl).1 .attributeError (by decide) rfl,
   ((findFile_error_handling (fun _ _ => .error .missingFileError) "/srv" "/" []
      "/a" (by decide) (by decide) rfl rfl).2.1 rfl).trans rfl⟩

end WhiteNoise
